import Mathlib

/-!
Verification of `src/prefect/environments.py` (flow packaging environments):
a shallow embedding of `LocalEnvironment` (encrypted payload codec, build,
run) and `ContainerEnvironment` (constructor validation, build-context
synthesis, docker build pipeline, run), together with theorems about the
embedded operations.

External collaborators (the `cloudpickle`, `cryptography.fernet`, `base64`,
`filecmp`, `os.path`, `docker` libraries and the Python runtime) are modelled
by small executable Lean functions that capture their documented contracts;
each such model carries a doc comment naming the library behaviour it stands
for.  Everything written by the repository itself is translated statement by
statement from `environments.py`.
-/

deriving instance DecidableEq for Except

namespace Prefect

/-- Byte strings are lists of naturals (one per byte). -/
abbrev Bytes := List Nat

/-- Model of the external `cloudpickle` collaborator's value domain: the flow
(computation) object is opaque to `environments.py`; we model it as a natural
number. -/
abbrev Flow := Nat

/-- Model of the external collaborator `cloudpickle.dumps`: a faithful
serializer of the opaque computation. -/
def cloudpickle_dumps (flow : Flow) : Bytes := [flow]

/-- Model of the external collaborator `cloudpickle.loads`: the exact inverse
of `cloudpickle_dumps` on its range. -/
def cloudpickle_loads (bs : Bytes) : Flow := bs.headD 0

/-- The error outcomes of `environments.py`, named after the specification's
error taxonomy.  In the Python source: `invalidKeyError` is the
`ValueError("Invalid encryption key.")` raised by `LocalEnvironment.__init__`;
`notBuiltError` is the `ValueError("No serialized flow found! ...")` raised by
`LocalEnvironment.run`; `invalidPayloadError` is the
`cryptography.fernet.InvalidToken` raised by `Fernet.decrypt`;
`pathConstraintError` is the `ValueError("Provided paths ... are not absolute
...")` raised by `ContainerEnvironment.__init__`; `fileConflictError` is the
`ValueError("File ... already exists ...")` raised by `create_dockerfile`;
`daemonError` is a `docker.errors.APIError` from a daemon call;
`buildContextError` is an `OSError` while assembling the build context; and
`typeError` is a Python `TypeError` (e.g. `os.path.join` applied to `None`). -/
inductive Err where
  | invalidKeyError
  | notBuiltError
  | invalidPayloadError
  | pathConstraintError
  | fileConflictError
  | daemonError
  | buildContextError
  | typeError
  deriving DecidableEq, Repr

/-- Model of the external collaborator `base64.b64encode`: a transport-safe
injective text encoding of a byte string (each byte becomes two digits). -/
def b64encode : Bytes → Bytes
  | [] => []
  | b :: bs => b / 64 :: b % 64 :: b64encode bs

/-- Model of the external collaborator `base64.b64decode`: the exact decoder
for `b64encode`. -/
def b64decode : Bytes → Bytes
  | hi :: lo :: bs => (hi * 64 + lo) :: b64decode bs
  | _ => []

/-- Model of the external collaborator `cryptography.fernet`: a Fernet key is
well formed (accepted by the `Fernet` constructor) exactly when it is a
32-byte symmetric key. -/
def fernetKeyValid (key : Bytes) : Bool := key.length == 32

/-- Model of the external collaborator `Fernet(key).encrypt`: authenticated
encryption; the token determines the message and commits to the key. -/
def fernetEncrypt (key msg : Bytes) : Bytes := key.length :: (key ++ msg)

/-- Model of the external collaborator `Fernet(key).decrypt`: recovers the
message exactly when the token was produced with the same key, and fails
(raises `InvalidToken`, i.e. returns `none`) on any key mismatch or
malformed token. -/
def fernetDecrypt (key : Bytes) : Bytes → Option Bytes
  | [] => none
  | n :: rest =>
      if n = key.length ∧ rest.take n = key then some (rest.drop n) else none

/-- Model of the external collaborator `Fernet.generate_key()`: the generated
key used when `LocalEnvironment` is constructed without one (a fixed valid
32-byte key; freshness is irrelevant to the claims). -/
def fernetGeneratedKey : Bytes := List.replicate 32 0

/-- `LocalEnvironment`: holds an encryption key and an optional serialized
flow (`None` in Python is `none` here). -/
structure LocalEnvironment where
  encryption_key : Bytes
  serialized_flow : Option Bytes
  deriving DecidableEq, Repr

/-- `LocalEnvironment.__init__`: if no key is given one is generated;
otherwise the key is validated by constructing `Fernet(encryption_key)`,
raising `ValueError("Invalid encryption key.")` on a malformed key.  The
constructor performs no daemon or build work. -/
def localEnvironmentInit (encryption_key : Option Bytes)
    (serialized_flow : Option Bytes) : Except Err LocalEnvironment :=
  match encryption_key with
  | none => .ok ⟨fernetGeneratedKey, serialized_flow⟩
  | some key =>
      if fernetKeyValid key then .ok ⟨key, serialized_flow⟩
      else .error .invalidKeyError

/-- `LocalEnvironment.serialize_flow_to_bytes`: pickle, then encrypt with the
environment's key, then base64-encode. -/
def serialize_flow_to_bytes (env : LocalEnvironment) (flow : Flow) : Bytes :=
  let pickled_flow := cloudpickle_dumps flow
  let encrypted_pickle := fernetEncrypt env.encryption_key pickled_flow
  let encoded_pickle := b64encode encrypted_pickle
  encoded_pickle

/-- `LocalEnvironment.deserialize_flow_from_bytes`: base64-decode, decrypt
with the environment's key (raising `InvalidToken` on mismatch, surfaced here
as `invalidPayloadError`), then unpickle. -/
def deserialize_flow_from_bytes (env : LocalEnvironment) (sf : Bytes) :
    Except Err Flow :=
  let decoded_pickle := b64decode sf
  match fernetDecrypt env.encryption_key decoded_pickle with
  | none => .error .invalidPayloadError
  | some decrypted_pickle => .ok (cloudpickle_loads decrypted_pickle)

/-- `LocalEnvironment.build`: a new `LocalEnvironment` with the same key and
the serialized flow; `self` is not mutated. -/
def localBuild (env : LocalEnvironment) (flow : Flow) : LocalEnvironment :=
  { encryption_key := env.encryption_key,
    serialized_flow := some (serialize_flow_to_bytes env flow) }

/-- `LocalEnvironment.run`: `if not self.serialized_flow` (Python truthiness:
`None` or empty bytes) raises `ValueError("No serialized flow found! Has this
environment been built?")`; otherwise the payload is decoded and handed to
the external flow-runner engine.  We return the decoded flow handed to the
engine. -/
def localRun (env : LocalEnvironment) : Except Err Flow :=
  match env.serialized_flow with
  | none => .error .notBuiltError
  | some sf =>
      if sf.isEmpty then .error .notBuiltError
      else deserialize_flow_from_bytes env sf

/-- Model of the external collaborator `os.path.isabs` (posix): a path is
absolute when it starts with a slash. -/
def os_path_isabs (p : String) : Bool :=
  match p.data with
  | [] => false
  | c :: _ => c = '/'

/-- Helper for `os_path_basename`: scans the characters, restarting the
accumulated component at every slash. -/
def basenameGo : List Char → List Char → List Char
  | [], acc => acc.reverse
  | c :: cs, acc => if c = '/' then basenameGo cs [] else basenameGo cs (c :: acc)

/-- Model of the external collaborator `os.path.basename` (posix): the part
of the path after the final slash. -/
def os_path_basename (p : String) : String := String.mk (basenameGo p.data [])

/-- Model of the external collaborator `os.path.join` (posix, two
arguments): an absolute second component replaces the first; otherwise the
components are joined with a single slash. -/
def os_path_join (a b : String) : String :=
  if os_path_isabs b then b
  else if a = "" ∨ a.data.getLastD ' ' = '/' then a ++ b
  else a ++ "/" ++ b

/-- A regular file on disk: its byte content and its modification time
(`os.stat` reports the size — here the content length — and `st_mtime`). -/
structure FileData where
  content : Bytes
  mtime : Nat
  deriving DecidableEq, Repr

/-- The file system visible to one build: a finite map from absolute paths to
regular files, as an association list. -/
abbrev FS := List (String × FileData)

/-- Look a path up in the file system (`os.path.exists` / reading a file). -/
def fsLookup : FS → String → Option FileData
  | [], _ => none
  | e :: rest, p => if e.fst = p then some e.snd else fsLookup rest p

/-- Remove every entry at a path (helper for overwriting). -/
def fsDelete : FS → String → FS
  | [], _ => []
  | e :: rest, p => if e.fst = p then fsDelete rest p else e :: fsDelete rest p

/-- Write a file (creating or overwriting), as `open(..., "w")` or
`shutil.copy2` does. -/
def fsSet (fs : FS) (p : String) (d : FileData) : FS :=
  (p, d) :: fsDelete fs p

/-- Model of the external collaborator `filecmp.cmp(f1, f2)` with its default
`shallow=True`, for two regular files: if the `os.stat` signatures (size and
modification time) coincide the files are reported equal without reading
them; otherwise files of different sizes are unequal and files of equal size
are compared byte for byte. -/
def filecmp_cmp (f1 f2 : FileData) : Bool :=
  if f1.content.length = f2.content.length ∧ f1.mtime = f2.mtime then true
  else if ¬ f1.content.length = f2.content.length then false
  else f1.content = f2.content

/-- `ContainerEnvironment`: base image, registry, dependencies, optional
image coordinates (`None` in Python is `none` here), environment variables
and auxiliary files (insertion-ordered mappings, as Python dicts are). -/
structure ContainerEnvironment where
  base_image : String
  registry_url : String
  image_name : Option String
  image_tag : Option String
  python_dependencies : List String
  env_vars : List (String × String)
  files : List (String × String)
  deriving DecidableEq, Repr

/-- `ContainerEnvironment.__init__`: stores the fields (with `or`-defaults
for the optional collections), then rejects any non-absolute path among the
keys of `files` with `ValueError("Provided paths ... are not absolute file
paths ...")`.  The constructor performs no daemon or build work. -/
def containerEnvironmentInit (base_image registry_url : String)
    (python_dependencies : Option (List String) := none)
    (image_name : Option String := none) (image_tag : Option String := none)
    (env_vars : Option (List (String × String)) := none)
    (files : Option (List (String × String)) := none) :
    Except Err ContainerEnvironment :=
  let fls := files.getD []
  let not_absolute := (fls.map Prod.fst).filter (fun p => ¬ os_path_isabs p)
  if ¬ not_absolute.isEmpty then .error .pathConstraintError
  else .ok { base_image := base_image, registry_url := registry_url,
             image_name := image_name, image_tag := image_tag,
             python_dependencies := python_dependencies.getD [],
             env_vars := env_vars.getD [],
             files := fls }

/-- The `copy_files` loop of `ContainerEnvironment.create_dockerfile`: for
each `(src, dest)` in `files`, stage `src` into the build directory under its
basename; if a file with that basename already exists there and
`filecmp.cmp(src, full_fname) is False`, raise `ValueError("File ... already
exists ...")`; otherwise `shutil.copy2` the file (content and metadata) and
append a `COPY` directive.  Reading a missing `src` is an `OSError`
(`buildContextError`).  Returns the updated file system and the accumulated
`COPY` directives. -/
def stageFiles (dir : String) : List (String × String) → FS →
    Except Err (FS × String)
  | [], fs => .ok (fs, "")
  | (src, dest) :: rest, fs =>
      let fname := os_path_basename src
      let full_fname := os_path_join dir fname
      match fsLookup fs src with
      | none => .error .buildContextError
      | some srcData =>
          let conflict : Bool :=
            match fsLookup fs full_fname with
            | some existing => filecmp_cmp srcData existing = false
            | none => false
          if conflict then .error .fileConflictError
          else
            match stageFiles dir rest (fsSet fs full_fname srcData) with
            | .error e => .error e
            | .ok (fs', s) =>
                .ok (fs', "COPY " ++ fname ++ " " ++ dest ++ "\n" ++ s)

/-- Model of Python `str(x)` on an optional string: `None` prints as
`"None"` (as `"{}".format(None)` and `os.getenv` substitution do). -/
def pyFormatOptStr (o : Option String) : String := o.getD "None"

/-- Model of Python `str.join`: concatenation with a separator between
consecutive elements. -/
def joinSep (sep : String) : List String → String
  | [] => ""
  | [x] => x
  | x :: xs => x ++ sep ++ joinSep sep xs

/-- The `pip_installs` accumulation of `create_dockerfile`: one
`RUN pip install` line per declared dependency, in order. -/
def pipInstalls (deps : List String) : String :=
  deps.foldl (fun acc dependency => acc ++ "RUN pip install " ++ dependency ++ "\n") ""

/-- The `env_vars` rendering of `create_dockerfile`: a single `ENV` directive
listing all `name=value` pairs in insertion order, joined by a
backslash-newline separator followed by twenty spaces of white space. -/
def envVarsStr (evs : List (String × String)) : String :=
  if evs.isEmpty then ""
  else "ENV " ++
    joinSep (" \\ \n" ++ String.mk (List.replicate 20 ' '))
      (evs.map (fun kv => kv.fst ++ "=" ++ kv.snd))

/-- The dedented Dockerfile template of `create_dockerfile`, with the four
format holes (`base_image`, `pip_installs`, `copy_files`, `env_vars`) and the
`PERSONAL_ACCESS_TOKEN` read from the process environment substituted in. -/
def dockerfileContents (base_image pip_installs copy_files env_vars : String)
    (access_token : Option String) : String :=
  "FROM " ++ base_image ++ "\n\n" ++
  "RUN apt-get -qq -y update && apt-get -qq -y install --no-install-recommends --no-install-suggests git\n\n" ++
  "RUN pip install pip --upgrade\n" ++
  "RUN pip install wheel\n" ++
  pip_installs ++ "\n\n" ++
  "RUN mkdir /root/.prefect/\n" ++
  "COPY flow_env.prefect /root/.prefect/flow_env.prefect\n" ++
  copy_files ++ "\n\n" ++
  "ENV PREFECT_ENVIRONMENT_FILE=\"/root/.prefect/flow_env.prefect\"\n" ++
  "ENV PREFECT__USER_CONFIG_PATH=\"/root/.prefect/config.toml\"\n" ++
  env_vars ++ "\n\n" ++
  "RUN git clone https://" ++ pyFormatOptStr access_token ++
  "@github.com/PrefectHQ/prefect.git\n" ++
  "RUN pip install ./prefect\n"

/-- The bytes of a string, for files whose content is written as text. -/
def strBytes (s : String) : Bytes := s.data.map Char.toNat

/-- `ContainerEnvironment.create_dockerfile`: opens `directory/Dockerfile`
with mode `w+` (creating or truncating it), renders the dependency-install
and environment-variable directives, stages the auxiliary `files` (the
`copy_files` loop, which may raise), builds a fresh `LocalEnvironment`
against the flow and persists it to `directory/flow_env.prefect` (the schema
dump written by `to_file` is modelled as the payload bytes), and finally
writes the rendered Dockerfile.  `genKey` models the `Fernet.generate_key()`
call inside `LocalEnvironment()`, and `access_token` models
`os.getenv("PERSONAL_ACCESS_TOKEN")`.  Returns the updated file system and
the Dockerfile contents. -/
def createDockerfile (env : ContainerEnvironment) (flow : Flow)
    (directory : String) (fs : FS) (genKey : Bytes)
    (access_token : Option String) : Except Err (FS × String) :=
  let fs0 := fsSet fs (os_path_join directory "Dockerfile") ⟨[], 0⟩
  let pip_installs := pipInstalls env.python_dependencies
  let env_vars := envVarsStr env.env_vars
  match stageFiles directory env.files fs0 with
  | .error e => .error e
  | .ok (fs1, copy_files) =>
      let local_environment := localBuild ⟨genKey, none⟩ flow
      let flow_path := os_path_join directory "flow_env.prefect"
      let fs2 := fsSet fs1 flow_path
        ⟨local_environment.serialized_flow.getD [], 0⟩
      let file_contents :=
        dockerfileContents env.base_image pip_installs copy_files env_vars
          access_token
      let fs3 := fsSet fs2 (os_path_join directory "Dockerfile")
        ⟨strBytes file_contents, 0⟩
      .ok (fs3, file_contents)

/-- A request sent to the docker daemon, with the keyword arguments the
source passes.  In `buildImage`, `nocache` is the option that would disable
build-time layer caching; the source never passes it, so the field records
`none` (the daemon-client default applies). -/
inductive DaemonCall where
  | pull (image : String)
  | buildImage (path : String) (tag : String) (forcerm : Bool)
      (nocache : Option Bool)
  | push (name : String) (tag : String)
  | removeImage (image : String) (force : Bool)
  | createContainer (image : String) (command : String) (detach : Bool)
  deriving DecidableEq, Repr

/-- Model of the external collaborator `docker.APIClient.build`: the
`nocache` keyword defaults to `False` (build-time layer caching enabled)
when the caller does not pass it. -/
def dockerBuildNocacheDefault : Bool := false

/-- Whether a given `buildImage` request disables build-time layer caching:
the effective `nocache` value, after applying the daemon-client default for
an unpassed option. -/
def buildCacheDisabled : DaemonCall → Bool
  | .buildImage _ _ _ nocache => nocache.getD dockerBuildNocacheDefault
  | _ => false

/-- Whether a daemon call is an image-build request. -/
def isBuildImageCall : DaemonCall → Bool
  | .buildImage _ _ _ _ => true
  | _ => false

/-- Whether a daemon call is a push request. -/
def isPushCall : DaemonCall → Bool
  | .push _ _ => true
  | _ => false

/-- Whether a daemon call is a remove-image request. -/
def isRemoveImageCall : DaemonCall → Bool
  | .removeImage _ _ => true
  | _ => false

/-- The outcome of one `ContainerEnvironment.build` invocation: the state the
receiver (`self`) is left in, the returned environment or the propagated
exception, and the daemon calls issued, in order. -/
structure BuildOutcome where
  self' : ContainerEnvironment
  result : Except Err ContainerEnvironment
  calls : List DaemonCall
  deriving Repr

/-- `ContainerEnvironment.build`: generates fresh `image_name`/`image_tag`
(the two `str(uuid.uuid4())` values are supplied as `image_name`/`image_tag`
here), then inside a temporary directory pulls the base image, synthesizes
the build context (`create_dockerfile`), requests the daemon build with
`forcerm=True` (and no `nocache` option), pushes when `push` is set, calls
`remove_image` unconditionally, and returns a new `ContainerEnvironment`
carrying the coordinates and dependencies but no `files`/`env_vars`.  The
daemon oracle `fails` says which daemon requests raise `APIError`; no daemon
failure is caught, so any failure propagates.  The method never assigns to
`self`, which `self'` records. -/
def containerBuild (env : ContainerEnvironment) (flow : Flow) (push : Bool)
    (image_name image_tag : String) (tempdir : String) (fs : FS)
    (genKey : Bytes) (access_token : Option String)
    (fails : DaemonCall → Bool) : BuildOutcome :=
  let pullCall := DaemonCall.pull env.base_image
  if fails pullCall then ⟨env, .error .daemonError, [pullCall]⟩
  else
    match createDockerfile env flow tempdir fs genKey access_token with
    | .error e => ⟨env, .error e, [pullCall]⟩
    | .ok _ =>
        let full_name := os_path_join env.registry_url image_name
        let buildCall :=
          DaemonCall.buildImage tempdir (full_name ++ ":" ++ image_tag) true none
        if fails buildCall then
          ⟨env, .error .daemonError, [pullCall, buildCall]⟩
        else
          let removeCall :=
            DaemonCall.removeImage (full_name ++ ":" ++ image_tag) true
          let newEnv : ContainerEnvironment :=
            { base_image := env.base_image, registry_url := env.registry_url,
              image_name := some image_name, image_tag := some image_tag,
              python_dependencies := env.python_dependencies,
              env_vars := [], files := [] }
          if push then
            let pushCall := DaemonCall.push full_name image_tag
            if fails pushCall then
              ⟨env, .error .daemonError, [pullCall, buildCall, pushCall]⟩
            else if fails removeCall then
              ⟨env, .error .daemonError,
                [pullCall, buildCall, pushCall, removeCall]⟩
            else
              ⟨env, .ok newEnv, [pullCall, buildCall, pushCall, removeCall]⟩
          else if fails removeCall then
            ⟨env, .error .daemonError, [pullCall, buildCall, removeCall]⟩
          else
            ⟨env, .ok newEnv, [pullCall, buildCall, removeCall]⟩

/-- `ContainerEnvironment.run`: computes
`os.path.join(self.registry_url, self.image_name)` — a Python `TypeError`
when `image_name` is `None`, since `os.path.join` rejects `None` — and then
asks the daemon to create a detached container from
`"{joined}:{image_tag}"` running the in-image command-line runner.  No
built-state check is performed. -/
def containerRun (env : ContainerEnvironment) : Except Err DaemonCall :=
  match env.image_name with
  | none => .error .typeError
  | some name =>
      .ok (DaemonCall.createContainer
        (os_path_join env.registry_url name ++ ":" ++
          pyFormatOptStr env.image_tag)
        "bash -c \"prefect run $PREFECT_ENVIRONMENT_FILE\"" true)

/-- A sample unbuilt container-variant descriptor (end-to-end scenario 2 of
the specification). -/
def sampleUnbuilt : ContainerEnvironment :=
  ⟨"python:3.7", "myrepo", none, none, ["requests"], [], []⟩

/-- A sample fully successful `build` of `sampleUnbuilt` with `push=True`:
no daemon call fails. -/
def sampleBuildOk : BuildOutcome :=
  containerBuild sampleUnbuilt 7 true "n" "t" "/tmp/build" []
    fernetGeneratedKey none (fun _ => false)

theorem b64decode_b64encode (bs : Bytes) : b64decode (b64encode bs) = bs := by
  induction bs with
  | nil => rfl
  | cons b bs ih =>
      simp [b64encode, b64decode, ih]
      omega

theorem fernetDecrypt_fernetEncrypt (key msg : Bytes) :
    fernetDecrypt key (fernetEncrypt key msg) = some msg := by
  simp [fernetEncrypt, fernetDecrypt]

theorem fernetDecrypt_wrong_key (k1 k2 msg : Bytes) (h : k1 ≠ k2) :
    fernetDecrypt k2 (fernetEncrypt k1 msg) = none := by
  simp only [fernetEncrypt, fernetDecrypt]
  by_cases hlen : k1.length = k2.length
  · have htake : (k1 ++ msg).take k1.length = k1 := List.take_left k1 msg
    rw [if_neg]
    intro hcond
    rcases hcond with ⟨-, h2⟩
    rw [htake] at h2
    exact h h2
  · rw [if_neg]
    intro hcond
    exact hlen hcond.1

theorem fsLookup_fsSet_self (fs : FS) (p : String) (d : FileData) :
    fsLookup (fsSet fs p d) p = some d := by
  simp [fsLookup, fsSet]

theorem fsLookup_fsDelete_of_ne (fs : FS) (p q : String) (h : q ≠ p) :
    fsLookup (fsDelete fs p) q = fsLookup fs q := by
  induction fs with
  | nil => rfl
  | cons e rest ih =>
      by_cases hp : e.fst = p
      · have hq : ¬ (e.fst = q) := by
          rw [hp]
          exact fun hpq => h hpq.symm
        have hpq : ¬ (p = q) := fun hh => h hh.symm
        simp [fsDelete, fsLookup, hp, hq, hpq, ih]
      · simp only [fsDelete, hp, if_false, fsLookup]
        by_cases hq : e.fst = q
        · simp [hq]
        · simp [hq, ih]

theorem fsLookup_fsSet_of_ne (fs : FS) (p q : String) (d : FileData)
    (h : q ≠ p) : fsLookup (fsSet fs p d) q = fsLookup fs q := by
  have hpq : ¬ (p = q) := fun hpq => h hpq.symm
  simp [fsLookup, fsSet, hpq, fsLookup_fsDelete_of_ne fs p q h]

theorem filecmp_cmp_self (d : FileData) : filecmp_cmp d d = true := by
  simp [filecmp_cmp]

/-- C5: decoding the encoding of a computation under the same valid key
recovers the computation: `deserialize_flow_from_bytes` inverts
`serialize_flow_to_bytes` on any Local-variant descriptor holding the key. -/
theorem claim_c5_roundtrip (key : Bytes) (sf : Option Bytes) (c : Flow)
    (_hk : fernetKeyValid key = true) :
    deserialize_flow_from_bytes ⟨key, sf⟩
      (serialize_flow_to_bytes ⟨key, sf⟩ c) = .ok c := by
  simp [serialize_flow_to_bytes, deserialize_flow_from_bytes,
    b64decode_b64encode, fernetDecrypt_fernetEncrypt, cloudpickle_dumps,
    cloudpickle_loads]

/-- Witness for C5 at the concrete key of 32 zero bytes and computation 7. -/
theorem claim_c5_roundtrip_witness :
    fernetKeyValid (List.replicate 32 0) = true ∧
    deserialize_flow_from_bytes ⟨List.replicate 32 0, none⟩
      (serialize_flow_to_bytes ⟨List.replicate 32 0, none⟩ 7) = .ok 7 :=
  ⟨by decide, claim_c5_roundtrip (List.replicate 32 0) none 7 (by decide)⟩

/-- C6: decoding an encoding made under one valid key with a different valid
key fails closed with `invalidPayloadError`; no corrupted-but-parseable value
is returned. -/
theorem claim_c6_wrong_key_fails (k1 k2 : Bytes) (sf1 sf2 : Option Bytes)
    (c : Flow) (_h1 : fernetKeyValid k1 = true) (_h2 : fernetKeyValid k2 = true)
    (hne : k1 ≠ k2) :
    deserialize_flow_from_bytes ⟨k2, sf2⟩
      (serialize_flow_to_bytes ⟨k1, sf1⟩ c) = .error .invalidPayloadError := by
  simp [serialize_flow_to_bytes, deserialize_flow_from_bytes,
    b64decode_b64encode, fernetDecrypt_wrong_key _ _ _ hne]

/-- Witness for C6 at two concrete distinct valid keys. -/
theorem claim_c6_wrong_key_fails_witness :
    fernetKeyValid (List.replicate 32 0) = true ∧
    fernetKeyValid (List.replicate 32 1) = true ∧
    (List.replicate 32 0 : Bytes) ≠ List.replicate 32 1 ∧
    deserialize_flow_from_bytes ⟨List.replicate 32 1, none⟩
      (serialize_flow_to_bytes ⟨List.replicate 32 0, none⟩ 7) =
        .error .invalidPayloadError :=
  ⟨by decide, by decide, by decide,
    claim_c6_wrong_key_fails (List.replicate 32 0) (List.replicate 32 1)
      none none 7 (by decide) (by decide) (by decide)⟩

/-- C8: validation happens at construction: a malformed encryption key makes
`LocalEnvironment.__init__` fail with `invalidKeyError`; a non-absolute key
in `files` makes `ContainerEnvironment.__init__` fail with
`pathConstraintError`; an all-absolute `files` mapping constructs
successfully.  The constructors perform no build or daemon work. -/
theorem claim_c8_construction_validation :
    (∀ key sf, fernetKeyValid key = false →
        localEnvironmentInit (some key) sf = .error Err.invalidKeyError)
    ∧ (∀ bi ru deps inm itg ev fls,
        (∃ p ∈ fls.map Prod.fst, os_path_isabs p = false) →
        containerEnvironmentInit bi ru deps inm itg ev (some fls) =
          .error Err.pathConstraintError)
    ∧ (∀ bi ru deps inm itg ev fls,
        (∀ p ∈ fls.map Prod.fst, os_path_isabs p = true) →
        ∃ env, containerEnvironmentInit bi ru deps inm itg ev (some fls) =
          .ok env ∧ env.files = fls) := by
  refine ⟨?_, ?_, ?_⟩
  · intro key sf hk
    simp [localEnvironmentInit, hk]
  · intro bi ru deps inm itg ev fls hbad
    rcases hbad with ⟨p, hp, habs⟩
    simp only [containerEnvironmentInit]
    rw [if_pos]
    simp only [List.isEmpty_eq_true, List.filter_eq_nil_iff]
    intro hall
    exact absurd habs (by simpa using hall p hp)
  · intro bi ru deps inm itg ev fls hall
    refine ⟨⟨bi, ru, inm, itg, deps.getD [], ev.getD [], fls⟩, ?_, rfl⟩
    simp only [containerEnvironmentInit]
    rw [if_neg]
    · rfl
    · simp only [List.isEmpty_eq_true, List.filter_eq_nil_iff, not_not]
      intro p hp
      simp [hall p hp]

/-- Witness for C8: a 1-byte key is rejected, a relative `files` key is
rejected, and an all-absolute `files` mapping constructs. -/
theorem claim_c8_construction_validation_witness :
    localEnvironmentInit (some [0]) none = .error Err.invalidKeyError ∧
    containerEnvironmentInit "python:3.7" "myrepo" none none none none
      (some [("rel.txt", "/app/rel.txt")]) = .error Err.pathConstraintError ∧
    ∃ env, containerEnvironmentInit "python:3.7" "myrepo" none none none none
      (some [("/abs/foo.txt", "/app/foo.txt")]) = .ok env ∧
      env.files = [("/abs/foo.txt", "/app/foo.txt")] :=
  ⟨claim_c8_construction_validation.1 [0] none (by decide),
   claim_c8_construction_validation.2.1 "python:3.7" "myrepo" none none none
     none [("rel.txt", "/app/rel.txt")] ⟨"rel.txt", by decide, by decide⟩,
   claim_c8_construction_validation.2.2 "python:3.7" "myrepo" none none none
     none [("/abs/foo.txt", "/app/foo.txt")] (by decide)⟩

/-- C3 fails as stated: running an unbuilt Container-variant does not raise
`NotBuiltError` — the source performs no built-state check, and
`os.path.join(registry_url, None)` raises a `TypeError` instead. -/
theorem claim_c3_counterexample :
    containerRun ⟨"python:3.7", "myrepo", none, none, [], [], []⟩ =
      .error Err.typeError ∧
    containerRun ⟨"python:3.7", "myrepo", none, none, [], [], []⟩ ≠
      .error Err.notBuiltError := by decide

/-- C3 amended: a Local-variant `run` with an unpopulated (or empty) payload
fails with `notBuiltError` before any decoding; a Container-variant `run`
with no `image_name` performs no built-state check and fails with a Python
`TypeError` from `os.path.join`, not with `notBuiltError`. -/
theorem claim_c3_unbuilt_run (env : LocalEnvironment)
    (cenv : ContainerEnvironment)
    (hl : env.serialized_flow = none ∨ env.serialized_flow = some [])
    (hc : cenv.image_name = none) :
    localRun env = .error Err.notBuiltError ∧
    containerRun cenv = .error Err.typeError := by
  constructor
  · rcases hl with h | h <;> simp [localRun, h]
  · simp [containerRun, hc]

/-- Witness for C3 amended at a fresh Local-variant and an unbuilt
Container-variant. -/
theorem claim_c3_unbuilt_run_witness :
    ((⟨fernetGeneratedKey, none⟩ : LocalEnvironment).serialized_flow = none ∨
      (⟨fernetGeneratedKey, none⟩ : LocalEnvironment).serialized_flow = some []) ∧
    sampleUnbuilt.image_name = none ∧
    localRun ⟨fernetGeneratedKey, none⟩ = .error Err.notBuiltError ∧
    containerRun sampleUnbuilt = .error Err.typeError := by
  refine ⟨Or.inl rfl, rfl, ?_⟩
  exact claim_c3_unbuilt_run ⟨fernetGeneratedKey, none⟩ sampleUnbuilt
    (Or.inl rfl) rfl

/-- C1 (code bug): with `push=False` the source still issues the
`remove_image` daemon call — the only copy of the never-pushed image is
deleted, contradicting the code's own comment that the image is removed
"after being pushed".  Evaluated at an unbuilt descriptor with every daemon
call succeeding: the call trace contains no push but does contain the
removal. -/
theorem claim_c1_remove_called_without_push :
    (containerBuild sampleUnbuilt 7 false "n" "t" "/tmp/build" []
        fernetGeneratedKey none (fun _ => false)).calls =
      [DaemonCall.pull "python:3.7",
       DaemonCall.buildImage "/tmp/build" "myrepo/n:t" true none,
       DaemonCall.removeImage "myrepo/n:t" true] ∧
    (containerBuild sampleUnbuilt 7 false "n" "t" "/tmp/build" []
        fernetGeneratedKey none (fun _ => false)).calls.any isPushCall = false ∧
    (containerBuild sampleUnbuilt 7 false "n" "t" "/tmp/build" []
        fernetGeneratedKey none (fun _ => false)).calls.any isRemoveImageCall =
      true := by decide

/-- C2 fails as stated: when pull, context synthesis, build and push all
succeed but the remove-image call raises, `build` does not return the built
descriptor — the failure propagates (there is no try/except around
`remove_image`). -/
theorem claim_c2_counterexample :
    (containerBuild sampleUnbuilt 7 true "n" "t" "/tmp/build" []
        fernetGeneratedKey none isRemoveImageCall).result =
      .error Err.daemonError := by decide

/-- C2 amended: a failure of the remove-image daemon call is not caught —
it propagates out of `build`, which therefore fails with the daemon error
instead of returning the built descriptor. -/
theorem claim_c2_remove_failure_propagates (env : ContainerEnvironment)
    (flow : Flow) (image_name image_tag tempdir : String) (fs : FS)
    (genKey : Bytes) (tok : Option String) (fails : DaemonCall → Bool)
    (hpull : fails (DaemonCall.pull env.base_image) = false)
    (hctx : ∃ r, createDockerfile env flow tempdir fs genKey tok = .ok r)
    (hbuild : fails (DaemonCall.buildImage tempdir
      (os_path_join env.registry_url image_name ++ ":" ++ image_tag) true
      none) = false)
    (hpush : fails (DaemonCall.push (os_path_join env.registry_url image_name)
      image_tag) = false)
    (hremove : fails (DaemonCall.removeImage
      (os_path_join env.registry_url image_name ++ ":" ++ image_tag) true) =
      true) :
    (containerBuild env flow true image_name image_tag tempdir fs genKey tok
      fails).result = .error Err.daemonError := by
  obtain ⟨r, hr⟩ := hctx
  simp [containerBuild, hpull, hr, hbuild, hpush, hremove]

/-- Witness for C2 amended: the concrete successful-push build whose
remove-image call fails. -/
theorem claim_c2_remove_failure_propagates_witness :
    isRemoveImageCall (DaemonCall.removeImage "myrepo/n:t" true) = true ∧
    isRemoveImageCall (DaemonCall.push "myrepo/n" "t") = false ∧
    (containerBuild sampleUnbuilt 7 true "n" "t" "/tmp/build" []
        fernetGeneratedKey none isRemoveImageCall).result =
      .error Err.daemonError :=
  ⟨rfl, rfl,
    claim_c2_remove_failure_propagates sampleUnbuilt 7 "n" "t" "/tmp/build"
      [] fernetGeneratedKey none isRemoveImageCall rfl ⟨_, rfl⟩ rfl rfl rfl⟩

/-- C4 fails as stated: the image-build request passes `forcerm=True` but
never passes `nocache`, so the daemon-client default (`nocache=False`,
layer caching enabled) applies: no emitted build request disables
build-time layer caching. -/
theorem claim_c4_counterexample :
    (containerBuild sampleUnbuilt 7 true "n" "t" "/tmp/build" []
        fernetGeneratedKey none (fun _ => false)).calls.any
      (fun c => isBuildImageCall c && buildCacheDisabled c) = false ∧
    (containerBuild sampleUnbuilt 7 true "n" "t" "/tmp/build" []
        fernetGeneratedKey none (fun _ => false)).calls.any
      isBuildImageCall = true := by decide

/-- C4 amended: every image-build request that `build` sends to the daemon
has `forcerm = True` (force-remove intermediate containers) and passes no
`nocache` option, leaving build-time layer caching at the daemon-client
default (enabled). -/
theorem claim_c4_build_request_flags (env : ContainerEnvironment)
    (flow : Flow) (push : Bool) (image_name image_tag tempdir : String)
    (fs : FS) (genKey : Bytes) (tok : Option String)
    (fails : DaemonCall → Bool) (p t : String) (frm : Bool)
    (nc : Option Bool)
    (hmem : DaemonCall.buildImage p t frm nc ∈
      (containerBuild env flow push image_name image_tag tempdir fs genKey
        tok fails).calls) :
    frm = true ∧ nc = none := by
  simp only [containerBuild] at hmem
  repeat' split at hmem
  all_goals simp_all

/-- Witness for C4 amended at the concrete successful build. -/
theorem claim_c4_build_request_flags_witness :
    DaemonCall.buildImage "/tmp/build" "myrepo/n:t" true none ∈
      sampleBuildOk.calls ∧
    (true = true ∧ (none : Option Bool) = none) :=
  ⟨by decide,
    claim_c4_build_request_flags sampleUnbuilt 7 true "n" "t" "/tmp/build"
      [] fernetGeneratedKey none (fun _ => false) "/tmp/build" "myrepo/n:t"
      true none (by decide)⟩

/-- C9: a successful `build` returns a descriptor that keeps `base_image`,
`registry_url` and `python_dependencies`, carries the two freshly generated
identifiers as its image coordinates, and carries no `files` and no
`env_vars`. -/
theorem claim_c9_build_result (env : ContainerEnvironment) (flow : Flow)
    (push : Bool) (image_name image_tag tempdir : String) (fs : FS)
    (genKey : Bytes) (tok : Option String) (fails : DaemonCall → Bool)
    (b : ContainerEnvironment)
    (hok : (containerBuild env flow push image_name image_tag tempdir fs
      genKey tok fails).result = .ok b) :
    b.base_image = env.base_image ∧ b.registry_url = env.registry_url ∧
    b.python_dependencies = env.python_dependencies ∧
    b.image_name = some image_name ∧ b.image_tag = some image_tag ∧
    b.files = [] ∧ b.env_vars = [] := by
  simp only [containerBuild] at hok
  repeat' split at hok
  all_goals simp_all
  all_goals subst hok
  all_goals exact ⟨rfl, rfl, rfl, rfl, rfl, rfl, rfl⟩

/-- Witness for C9 at the concrete successful build. -/
theorem claim_c9_build_result_witness :
    sampleBuildOk.result =
      .ok ⟨"python:3.7", "myrepo", some "n", some "t", ["requests"], [], []⟩ ∧
    (⟨"python:3.7", "myrepo", some "n", some "t", ["requests"], [], []⟩ :
        ContainerEnvironment).base_image = sampleUnbuilt.base_image :=
  ⟨by decide,
    (claim_c9_build_result sampleUnbuilt 7 true "n" "t" "/tmp/build" []
      fernetGeneratedKey none (fun _ => false)
      ⟨"python:3.7", "myrepo", some "n", some "t", ["requests"], [], []⟩
      (by decide)).1⟩

/-- C10: `build` never mutates the receiver: whatever happens (any daemon
outcome, any `push` flag), the state `self` is left in equals its pre-call
value, so an unbuilt receiver stays unbuilt and can be built again. -/
theorem claim_c10_build_no_mutation (env : ContainerEnvironment)
    (flow : Flow) (push : Bool) (image_name image_tag tempdir : String)
    (fs : FS) (genKey : Bytes) (tok : Option String)
    (fails : DaemonCall → Bool) :
    (containerBuild env flow push image_name image_tag tempdir fs genKey tok
      fails).self' = env := by
  simp only [containerBuild]
  repeat' split
  all_goals rfl

/-- C7 fails as stated: `filecmp.cmp` is called with its default
`shallow=True`, so a pre-existing same-basename file whose stat signature
(size and mtime) matches the source is reported equal without reading its
bytes — here the build directory holds `foo` with content `[1]` while the
source `foo` has content `[2]` (same length, same mtime), the contents
differ, and yet no `fileConflictError` is raised. -/
theorem claim_c7_counterexample :
    stageFiles "/tmp/build" [("/a/foo", "/app/foo")]
        [("/a/foo", ⟨[2], 5⟩), ("/tmp/build/foo", ⟨[1], 5⟩)] ≠
      Except.error Err.fileConflictError ∧
    (fsLookup [("/a/foo", ⟨[2], 5⟩), ("/tmp/build/foo", ⟨[1], 5⟩)]
        "/a/foo").map FileData.content ≠
      (fsLookup [("/a/foo", ⟨[2], 5⟩), ("/tmp/build/foo", ⟨[1], 5⟩)]
        "/tmp/build/foo").map FileData.content := by decide

/-- C7 amended: staging `(src, dest)` raises `fileConflictError` exactly
when a file with `src`'s basename already exists in the build directory and
`filecmp.cmp` (shallow mode: equal size-and-mtime signatures compare equal
without reading bytes; otherwise sizes, then byte contents, are compared)
reports it different from `src`; and staging the same unchanged pair twice
never raises, because `shutil.copy2` preserves content and mtime. -/
theorem claim_c7_file_conflict (dir src dest : String) (d : FileData)
    (fs : FS) (hsrc : fsLookup fs src = some d) :
    (stageFiles dir [(src, dest)] fs = .error Err.fileConflictError ↔
      ∃ e, fsLookup fs (os_path_join dir (os_path_basename src)) = some e ∧
        filecmp_cmp d e = false) ∧
    ∀ fs' s, stageFiles dir [(src, dest)] fs = .ok (fs', s) →
      stageFiles dir [(src, dest)] fs' ≠ .error Err.fileConflictError := by
  have hself : fsLookup (fsSet fs (os_path_join dir (os_path_basename src))
      d) src = some d := by
    by_cases hsf : src = os_path_join dir (os_path_basename src)
    · rw [← hsf]
      exact fsLookup_fsSet_self fs src d
    · rw [fsLookup_fsSet_of_ne _ _ _ _ hsf]
      exact hsrc
  constructor
  · cases hfull : fsLookup fs (os_path_join dir (os_path_basename src)) with
    | none => simp [stageFiles, hsrc, hfull]
    | some e =>
        by_cases hcmp : filecmp_cmp d e = false
        · simp [stageFiles, hsrc, hfull, hcmp]
        · simp [stageFiles, hsrc, hfull, hcmp]
  · intro fs' s hok
    have hfs' : fs' = fsSet fs (os_path_join dir (os_path_basename src)) d := by
      cases hfull : fsLookup fs (os_path_join dir (os_path_basename src)) with
      | none =>
          simp [stageFiles, hsrc, hfull] at hok
          exact hok.1.symm
      | some e =>
          by_cases hcmp : filecmp_cmp d e = false
          · simp [stageFiles, hsrc, hfull, hcmp] at hok
          · simp [stageFiles, hsrc, hfull, hcmp] at hok
            exact hok.1.symm
    subst hfs'
    simp [stageFiles, hself, fsLookup_fsSet_self, filecmp_cmp_self]

/-- Witness for C7 amended: a source file staged into an empty build
directory (no pre-existing basename), where re-staging the identical pair
raises nothing. -/
theorem claim_c7_file_conflict_witness :
    fsLookup [("/a/foo", ⟨[1], 0⟩)] "/a/foo" = some ⟨[1], 0⟩ ∧
    ((stageFiles "/b" [("/a/foo", "/app/foo")] [("/a/foo", ⟨[1], 0⟩)] =
        .error Err.fileConflictError ↔
      ∃ e, fsLookup [("/a/foo", ⟨[1], 0⟩)]
          (os_path_join "/b" (os_path_basename "/a/foo")) = some e ∧
        filecmp_cmp ⟨[1], 0⟩ e = false) ∧
    ∀ fs' s, stageFiles "/b" [("/a/foo", "/app/foo")]
        [("/a/foo", ⟨[1], 0⟩)] = .ok (fs', s) →
      stageFiles "/b" [("/a/foo", "/app/foo")] fs' ≠
        .error Err.fileConflictError) :=
  ⟨by decide,
    claim_c7_file_conflict "/b" "/a/foo" "/app/foo" ⟨[1], 0⟩
      [("/a/foo", ⟨[1], 0⟩)] (by decide)⟩


end Prefect
